import Mathlib

/-!
Verification development for `eft_stats.py` of the eo-pollination repository.

The pipeline decomposes categorical rasters into per-category masks,
builds circular pixel kernels, convolves masks with kernels, and
aggregates thresholded convolution results into a per-pixel count raster,
scheduling all work through a task graph.

We embed the numeric per-pixel operations (`_add_thresholds`'s inner
`_add_threshold_op`, `_mask_by_value`'s inner `_mask_op`,
`_make_radius_kernel`) and the orchestration logic of `main` (radius
validation, pixel rounding, kernel deduplication, and the wiring of mask,
convolution and aggregation work items) as pure Lean functions, and prove
or refute the specified properties against them.

Rasters are flat lists of cell values; cell values that live in floating
point in the source are modelled by `FVal`, a type carrying IEEE-style
equality (`NaN` compares unequal to everything, itself included).
Radii and pixel sizes are exact rationals; Python's `round` (banker's
rounding, round-half-to-even) is modelled by `pyRound`.
-/

/-- `NODATA = -1`, the module-level output no-data sentinel. -/
def NODATA : ℤ := -1

/-! ## `_add_thresholds` (eft_stats.py lines 26-37)

```python
def _add_threshold_op(*base_array_list):
    result = numpy.full(base_array_list[0].shape, NODATA, dtype=numpy.int32)
    for base_array in base_array_list:
        result[base_array > 0] += 1
    return result
```

Per cell: the result starts at `NODATA` (-1) and is incremented once for
every input array strictly positive there. -/

/-- The per-cell computation of `_add_threshold_op`: fold over the cell's
values across all input rasters, starting from `NODATA` and adding 1 for
each strictly positive value. -/
def addThresholdCell (vals : List ℤ) : ℤ :=
  vals.foldl (fun acc v => if 0 < v then acc + 1 else acc) NODATA

/-- `_add_threshold_op` over whole (aligned, flat) rasters: cell `i` of the
output is `addThresholdCell` of the `i`-th cell of every input raster. -/
def addThresholds (arrays : List (List ℤ)) (ncells : ℕ) : List ℤ :=
  (List.range ncells).map (fun i => addThresholdCell (arrays.map (fun a => a.getD i 0)))

/-! ## `_mask_by_value` (eft_stats.py lines 45-62)

```python
nodata = geoprocessing.get_raster_info(base_raster_path)['nodata'][0]
target_nodata = 2
def _mask_op(array):
    result = numpy.full(array.shape, target_nodata, dtype=numpy.int8)
    if nodata is not None:
        valid_mask = (array != nodata)
    else:
        valid_mask = numpy.isfinite(array)
    result[valid_mask] = (array[valid_mask] == mask_value).astype(numpy.int8)
    return result
```

The cells are floating point, so `!=` and `==` are IEEE comparisons:
`NaN != x` is true and `NaN == x` is false for every `x`. -/

/-- A floating-point cell value: `NaN`, `+inf`, `-inf`, or a finite
rational. -/
inductive FVal where
  | nan : FVal
  | pinf : FVal
  | ninf : FVal
  | fin : ℚ → FVal
deriving DecidableEq, Repr

/-- IEEE `==` on cell values: `NaN` is equal to nothing (itself included);
infinities are equal only to themselves; finite values compare by value. -/
def feq : FVal → FVal → Bool
  | FVal.nan, _ => false
  | _, FVal.nan => false
  | FVal.pinf, FVal.pinf => true
  | FVal.ninf, FVal.ninf => true
  | FVal.fin a, FVal.fin b => a == b
  | _, _ => false

/-- IEEE `!=` on cell values: the negation of IEEE `==` (so `NaN != x` is
true for every `x`). -/
def fne (a b : FVal) : Bool := !(feq a b)

/-- `numpy.isfinite`: true exactly on finite values. -/
def isfinite : FVal → Bool
  | FVal.fin _ => true
  | _ => false

/-- The per-cell computation of `_mask_op` for one cell `a`, given the
source raster's declared no-data value (`none` when the raster declares
none) and the target category `maskValue`.  The output type is int8 and
only ever holds 0, 1 or 2 (2 = `target_nodata`, the invalid sentinel). -/
def maskCell (nodata : Option FVal) (maskValue : FVal) (a : FVal) : ℤ :=
  let valid :=
    match nodata with
    | some nd => fne a nd
    | none => isfinite a
  if valid then (if feq a maskValue then 1 else 0) else 2

/-- `_mask_op` over a whole (flat) raster. -/
def maskOp (nodata : Option FVal) (maskValue : FVal) (array : List FVal) : List ℤ :=
  array.map (maskCell nodata maskValue)

/-! ## `_make_radius_kernel` (eft_stats.py lines 65-74)

```python
kernel = numpy.arange(0, n_pixels*2)
circle_mask = (
    (kernel[numpy.newaxis, :]-n_pixels)**2 +
    (kernel[:, numpy.newaxis]-n_pixels)**2) < n_pixels**2
```

`circle_mask[r, c] = (c - n)^2 + (r - n)^2 < n^2` on a `2n x 2n` grid. -/

/-- Cell `(r, c)` of the kernel built by `_make_radius_kernel n`: set iff
`(c - n)^2 + (r - n)^2 < n^2` (indices range over `0 .. 2*n - 1`). -/
def makeRadiusKernel (n : ℕ) (r c : ℕ) : Bool :=
  decide ((((c : ℤ) - n) ^ 2 + ((r : ℤ) - n) ^ 2) < (n : ℤ) ^ 2)

/-- Number of set cells of the kernel built for `n`. -/
def kernelSetCount (n : ℕ) : ℕ :=
  (((Finset.range (2 * n)) ×ˢ (Finset.range (2 * n))).filter
    (fun p => makeRadiusKernel n p.1 p.2 = true)).card

/-- Number of integer lattice points strictly inside a circle of radius
`n` centered at the origin. -/
def latticePointsInsideCircle (n : ℕ) : ℕ :=
  (((Finset.Icc (-(n : ℤ)) n) ×ˢ (Finset.Icc (-(n : ℤ)) n)).filter
    (fun p => p.1 ^ 2 + p.2 ^ 2 < (n : ℤ) ^ 2)).card

/-! ## Python `round` -/

/-- Python's builtin `round` on an exact rational: round half to even
(banker's rounding), as used in `round(search_radius/pixel_size)`. -/
def pyRound (q : ℚ) : ℤ :=
  let f := ⌊q⌋
  let frac := q - f
  if frac < 1 / 2 then f
  else if 1 / 2 < frac then f + 1
  else if f % 2 = 0 then f else f + 1

/-! ## Orchestration model: first loop of `main` (eft_stats.py lines 107-152)

For each input raster, `main` first submits a `get_unique_values` task,
then for each requested search radius validates the radius against 5% of
the raster's shorter dimension (unless `--force`), converts it to
`n_pixels`, and submits a kernel-builder task unless
`kernel_lookup_by_n_pixels` already holds that `n_pixels`:

```python
unique_task = task_graph.add_task(func=geoprocessing.get_unique_values, ...)
for search_radius in args.search_radius:
    min_raster_size = raster_info['pixel_size'][0]*min(*raster_info['raster_size'])
    if not args.force and (search_radius > .05*min_raster_size):
        raise ValueError(...)
    n_pixels = round(search_radius/raster_info['pixel_size'][0])
    kernel_path = os.path.join(local_working_dir, f'kernel_{n_pixels}.tif')
    if n_pixels not in kernel_lookup_by_n_pixels:
        kernel_task = task_graph.add_task(func=_make_radius_kernel, ...)
        kernel_lookup_by_n_pixels[n_pixels] = (kernel_path, kernel_task)
    kernel_path = kernel_lookup_by_n_pixels[n_pixels][0]
    kernel_path_list.append((search_radius, kernel_path, kernel_task))
```

Kernel artifact paths are modelled as pairs `(raster index, n_pixels)`
(`kernel_{n_pixels}.tif` inside the raster's working directory); task ids
are allocated sequentially.  Note that on the dedup branch the *variable*
`kernel_task` still holds whatever the last executed `add_task` inside the
`if` assigned, which the model reproduces with the field `kvar`. -/

/-- A work item submitted to the task graph during the first loop of `main`. -/
inductive WorkItem where
  | uniqueValues (raster : ℕ) (tid : ℕ)
  | kernelBuild (n : ℤ) (path : ℕ × ℤ) (tid : ℕ)
deriving DecidableEq, Repr

/-- Raster metadata used by the radius validation: `pixel_size[0]` and
`raster_size` (width, height in pixels). -/
structure RasterInfo where
  pixelSize : ℚ
  rasterWidth : ℕ
  rasterHeight : ℕ
deriving DecidableEq, Repr

/-- A value of `kernel_lookup_by_n_pixels`: the kernel artifact path and
the kernel-builder task id stored when the kernel was first created. -/
structure KernelEntry where
  path : ℕ × ℤ
  taskId : ℕ
deriving DecidableEq, Repr

/-- One element of `kernel_path_list`:
`(search_radius, kernel_path, kernel_task)`.  `kernelTask` is the value of
the Python *variable* `kernel_task` at append time (line 146), not the
task stored in the lookup for `kernelPath`. -/
structure RadiusEntry where
  radius : ℚ
  kernelPath : ℕ × ℤ
  kernelTask : Option ℕ
deriving DecidableEq, Repr

/-- The orchestrator's state across the first loop: the kernel lookup, the
current binding of the Python variable `kernel_task` (`none` before any
kernel was ever built), the next fresh task id, and the submitted work
items in submission order. -/
structure OrchState where
  lookup : List (ℤ × KernelEntry)
  kvar : Option ℕ
  nextId : ℕ
  tasks : List WorkItem
deriving DecidableEq, Repr

/-- `n_pixels in kernel_lookup_by_n_pixels` / `kernel_lookup_by_n_pixels[n_pixels]`. -/
def findKernel (lookup : List (ℤ × KernelEntry)) (n : ℤ) : Option KernelEntry :=
  (lookup.find? (fun e => e.1 == n)).map (fun e => e.2)

/-- `raster_info['pixel_size'][0]*min(*raster_info['raster_size'])`. -/
def minRasterSize (info : RasterInfo) : ℚ :=
  info.pixelSize * ((min info.rasterWidth info.rasterHeight : ℕ) : ℚ)

/-- The guard of line 126:
`not args.force and (search_radius > .05*min_raster_size)`. -/
def radiusTooLarge (force : Bool) (info : RasterInfo) (radius : ℚ) : Prop :=
  force = false ∧ (5 / 100) * minRasterSize info < radius

instance (force : Bool) (info : RasterInfo) (radius : ℚ) :
    Decidable (radiusTooLarge force info radius) :=
  inferInstanceAs (Decidable (_ ∧ _))

/-- Line 134: `n_pixels = round(search_radius/raster_info['pixel_size'][0])`. -/
def nPixelsOf (info : RasterInfo) (radius : ℚ) : ℤ :=
  pyRound (radius / info.pixelSize)

/-- Lines 122-146 for one `search_radius`: the 5% sanity check (raising
`ValueError`, modelled as `Except.error` carrying the state at the raise),
pixel conversion, kernel dedup, and the `kernel_path_list` append. -/
def processRadius (force : Bool) (raster : ℕ) (info : RasterInfo)
    (st : OrchState) (radius : ℚ) : Except OrchState (OrchState × RadiusEntry) :=
  if radiusTooLarge force info radius then
    Except.error st
  else
    let n := nPixelsOf info radius
    let kp : ℕ × ℤ := (raster, n)
    match findKernel st.lookup n with
    | none =>
        let tid := st.nextId
        let st' : OrchState :=
          { lookup := (n, ⟨kp, tid⟩) :: st.lookup
            kvar := some tid
            nextId := st.nextId + 1
            tasks := st.tasks ++ [WorkItem.kernelBuild n kp tid] }
        Except.ok (st', ⟨radius, kp, some tid⟩)
    | some entry =>
        Except.ok (st, ⟨radius, entry.path, st.kvar⟩)

/-- The `for search_radius in args.search_radius` loop, accumulating
`kernel_path_list`; a raised `ValueError` aborts the whole loop. -/
def processRadii (force : Bool) (raster : ℕ) (info : RasterInfo)
    (st : OrchState) : List ℚ → Except OrchState (OrchState × List RadiusEntry)
  | [] => Except.ok (st, [])
  | radius :: rest =>
      match processRadius force raster info st radius with
      | Except.error st' => Except.error st'
      | Except.ok (st', e) =>
          match processRadii force raster info st' rest with
          | Except.error st'' => Except.error st''
          | Except.ok (st'', es) => Except.ok (st'', e :: es)

/-- Lines 108-152 for one input raster: submit the `get_unique_values`
task (line 110), then process every requested radius. -/
def processRaster (force : Bool) (raster : ℕ) (info : RasterInfo)
    (radii : List ℚ) (st : OrchState) :
    Except OrchState (OrchState × List RadiusEntry) :=
  let uid := st.nextId
  let st1 : OrchState :=
    { st with
      nextId := st.nextId + 1
      tasks := st.tasks ++ [WorkItem.uniqueValues raster uid] }
  processRadii force raster info st1 radii

/-- The whole first loop over `eft_raster_path_list` (rasters are indexed
by their position); `args.search_radius` is the same list for every
raster. -/
def processRastersFrom (force : Bool) (radii : List ℚ) :
    OrchState → ℕ → List RasterInfo →
    Except OrchState (OrchState × List (List RadiusEntry))
  | st, _, [] => Except.ok (st, [])
  | st, idx, info :: rest =>
      match processRaster force idx info radii st with
      | Except.error st' => Except.error st'
      | Except.ok (st', entries) =>
          match processRastersFrom force radii st' (idx + 1) rest with
          | Except.error st'' => Except.error st''
          | Except.ok (st'', ess) => Except.ok (st'', entries :: ess)

/-- The initial orchestrator state: empty kernel lookup, the Python
variable `kernel_task` not yet bound, no tasks submitted. -/
def initState : OrchState := ⟨[], none, 0, []⟩

/-- The first loop of `main`, started from the initial state. -/
def processAllRasters (force : Bool) (radii : List ℚ) (infos : List RasterInfo) :
    Except OrchState (OrchState × List (List RadiusEntry)) :=
  processRastersFrom force radii initState 0 infos

/-! ## Orchestration model: second loop of `main` (eft_stats.py lines 154-199)

```python
for eft_raster_path, unique_task, kernel_path_list, local_working_dir in raster_stats_list:
    unique_set = unique_task.get()
    for unique_value in unique_set:
        mask_task = task_graph.add_task(func=_mask_by_value, ...)
        convolution_raster_list = []
        convolution_task_list = []
        for search_radius, kernel_path, kernel_task in kernel_path_list:
            convolution_task = task_graph.add_task(
                func=geoprocessing.convolve_2d, ...,
                dependent_task_list=[mask_task, kernel_task], ...)
            convolution_task_list.append(convolution_task)
            convolution_raster_list.append(convolution_raster_path)
    # dedented out of the unique_value loop:
    task_graph.add_task(
        func=_add_thresholds,
        args=(convolution_raster_list, eft_count_raster_path),
        dependent_task_list=convolution_task_list, ...)
```

Mask paths are modelled as `(raster index, unique_value)` and convolution
output paths as `(raster index, unique_value, search_radius)`.  The lists
`convolution_raster_list` / `convolution_task_list` are re-initialized
inside the per-category loop, and the aggregator is submitted after the
loop, so it sees only the bindings left by the last iteration (an empty
category set would leave them unbound in Python, a `NameError`; the model
uses the initial empty lists in that case and theorems use nonempty
category sets). -/

/-- A submitted `_mask_by_value` work item. -/
structure MaskTask where
  path : ℕ × ℤ
  tid : ℕ
deriving DecidableEq, Repr

/-- A submitted `convolve_2d` work item: the mask and kernel rasters it
reads, its output path, its `dependent_task_list`
(`[mask_task, kernel_task]`, the kernel slot being the possibly-stale
variable recorded in the `RadiusEntry`), and its task id. -/
structure ConvTask where
  maskPath : ℕ × ℤ
  kernelPath : ℕ × ℤ
  outPath : ℕ × ℤ × ℚ
  deps : List (Option ℕ)
  tid : ℕ
deriving DecidableEq, Repr

/-- A submitted `_add_thresholds` work item: the list of convolution
rasters handed to it as `base_raster_path_list` and its
`dependent_task_list`. -/
structure AggTask where
  raster : ℕ
  inputs : List (ℕ × ℤ × ℚ)
  deps : List ℕ
  tid : ℕ
deriving DecidableEq, Repr

/-- State across the second loop: fresh task ids, submitted mask and
convolution work items, and the current bindings of the Python variables
`convolution_raster_list` / `convolution_task_list`. -/
structure Phase2State where
  nextId : ℕ
  maskTasks : List MaskTask
  convTasks : List ConvTask
  convRasterList : List (ℕ × ℤ × ℚ)
  convTaskList : List ℕ
deriving DecidableEq, Repr

/-- The body of `for unique_value in unique_set`: submit the mask task,
reset the two lists, then submit one convolution per `kernel_path_list`
entry with `dependent_task_list = [mask_task, kernel_task]`. -/
def processUniqueValue (raster : ℕ) (entries : List RadiusEntry)
    (st : Phase2State) (v : ℤ) : Phase2State :=
  let mtid := st.nextId
  let st0 : Phase2State :=
    { nextId := st.nextId + 1
      maskTasks := st.maskTasks ++ [⟨(raster, v), mtid⟩]
      convTasks := st.convTasks
      convRasterList := []
      convTaskList := [] }
  entries.foldl
    (fun s e =>
      let ctid := s.nextId
      let out : ℕ × ℤ × ℚ := (raster, v, e.radius)
      { nextId := s.nextId + 1
        maskTasks := s.maskTasks
        convTasks := s.convTasks ++
          [⟨(raster, v), e.kernelPath, out, [some mtid, e.kernelTask], ctid⟩]
        convRasterList := s.convRasterList ++ [out]
        convTaskList := s.convTaskList ++ [ctid] })
    st0

/-- Lines 154-199 for one raster: loop over the category set, then submit
the `_add_thresholds` aggregator with whatever
`convolution_raster_list` / `convolution_task_list` hold after the loop. -/
def processRasterPhase2 (raster : ℕ) (uniqueSet : List ℤ)
    (entries : List RadiusEntry) (st : Phase2State) : Phase2State × AggTask :=
  let st' := uniqueSet.foldl (processUniqueValue raster entries) st
  (⟨st'.nextId + 1, st'.maskTasks, st'.convTasks, st'.convRasterList, st'.convTaskList⟩,
   ⟨raster, st'.convRasterList, st'.convTaskList, st'.nextId⟩)

/-- The initial second-loop state. -/
def initPhase2 (nextId : ℕ) : Phase2State := ⟨nextId, [], [], [], []⟩

/-- All convolution output rasters actually produced for one raster: the
full cross product of its category set with the `kernel_path_list`
entries. -/
def allConvOutputs (raster : ℕ) (uniqueSet : List ℤ)
    (entries : List RadiusEntry) : List (ℕ × ℤ × ℚ) :=
  (uniqueSet.map (fun v => entries.map (fun e => (raster, v, e.radius)))).flatten

/-! ## Theorems -/

/-- The kernel predicate in explicit form. -/
theorem makeRadiusKernel_iff (n r c : ℕ) :
    makeRadiusKernel n r c = true ↔
      ((r : ℤ) - n) ^ 2 + ((c : ℤ) - n) ^ 2 < (n : ℤ) ^ 2 := by
  simp only [makeRadiusKernel, decide_eq_true_eq]
  constructor <;> intro h <;> linarith

/-- Counting set kernel cells equals counting lattice points strictly
inside the circle of radius `n`: shift indices by `(-n, -n)`. -/
theorem kernelSetCount_eq_latticePoints (n : ℕ) :
    kernelSetCount n = latticePointsInsideCircle n := by
  unfold kernelSetCount latticePointsInsideCircle
  refine Finset.card_nbij' (fun p => (((p.1 : ℤ) - n), ((p.2 : ℤ) - n)))
    (fun q => ((q.1 + n).toNat, (q.2 + n).toNat)) ?_ ?_ ?_ ?_
  · rintro ⟨a, b⟩ hp
    simp only [Finset.mem_filter, Finset.mem_product, Finset.mem_range,
      makeRadiusKernel, decide_eq_true_eq] at hp
    obtain ⟨⟨h1, h2⟩, h3⟩ := hp
    simp only [Finset.mem_filter, Finset.mem_product, Finset.mem_Icc]
    constructor
    · constructor <;> constructor <;> omega
    · linarith
  · rintro ⟨x, y⟩ hq
    simp only [Finset.mem_filter, Finset.mem_product, Finset.mem_Icc] at hq
    obtain ⟨⟨⟨h1, h2⟩, h3, h4⟩, h5⟩ := hq
    have hx : x ^ 2 < (n : ℤ) ^ 2 := by nlinarith [sq_nonneg y]
    have hy : y ^ 2 < (n : ℤ) ^ 2 := by nlinarith [sq_nonneg x]
    have hx1 : x < (n : ℤ) := by nlinarith
    have hy1 : y < (n : ℤ) := by nlinarith
    have hx2 : -(n : ℤ) < x := by nlinarith
    have hy2 : -(n : ℤ) < y := by nlinarith
    simp only [Finset.mem_filter, Finset.mem_product, Finset.mem_range,
      makeRadiusKernel, decide_eq_true_eq]
    have e1 : (((x + n).toNat : ℤ)) = x + n := by omega
    have e2 : (((y + n).toNat : ℤ)) = y + n := by omega
    constructor
    · constructor <;> omega
    · rw [e1, e2]
      ring_nf
      ring_nf at h5
      linarith
  · rintro ⟨a, b⟩ hp
    simp only [Finset.mem_filter, Finset.mem_product, Finset.mem_range] at hp
    obtain ⟨⟨h1, h2⟩, _⟩ := hp
    simp only [Prod.mk.injEq]
    omega
  · rintro ⟨x, y⟩ hq
    simp only [Finset.mem_filter, Finset.mem_product, Finset.mem_Icc] at hq
    obtain ⟨⟨⟨h1, h2⟩, h3, h4⟩, h5⟩ := hq
    have hx : x ^ 2 < (n : ℤ) ^ 2 := by nlinarith [sq_nonneg y]
    have hy : y ^ 2 < (n : ℤ) ^ 2 := by nlinarith [sq_nonneg x]
    have hx1 : x < (n : ℤ) := by nlinarith
    have hy1 : y < (n : ℤ) := by nlinarith
    simp only [Prod.mk.injEq]
    omega

/-- C7: for every positive `n_pixels`, `_make_radius_kernel` produces a
`2*n_pixels x 2*n_pixels` grid whose cell `(r, c)` is set iff
`(r - n_pixels)^2 + (c - n_pixels)^2 < n_pixels^2`, and whose number of
set cells equals the number of integer lattice points strictly inside a
circle of radius `n_pixels`. -/
theorem C7_kernel_shape_and_count (n : ℕ) (hn : 1 ≤ n) :
    (∀ r c : ℕ, makeRadiusKernel n r c = true ↔
      ((r : ℤ) - n) ^ 2 + ((c : ℤ) - n) ^ 2 < (n : ℤ) ^ 2) ∧
    kernelSetCount n = latticePointsInsideCircle n :=
  ⟨fun r c => makeRadiusKernel_iff n r c, kernelSetCount_eq_latticePoints n⟩

/-- Witness for C7 at `n_pixels = 3`. -/
theorem C7_witness :
    1 ≤ 3 ∧
    ((∀ r c : ℕ, makeRadiusKernel 3 r c = true ↔
      ((r : ℤ) - 3) ^ 2 + ((c : ℤ) - 3) ^ 2 < (3 : ℤ) ^ 2) ∧
    kernelSetCount 3 = latticePointsInsideCircle 3) :=
  ⟨by decide, C7_kernel_shape_and_count 3 (by decide)⟩

/-- C8 counterexample: the kernel grid is NOT invariant under 90° rotation
or under reflection about the array's own center.  The grid has even side
`2*n_pixels` while the disc is centered at index `n_pixels`, so at
`n_pixels = 1` the only set cell is `(1, 1)`: its image under the 90°
rotation `(r, c) ↦ (c, 2n-1-r)` is `(1, 0)` and its image under the
horizontal reflection `(r, c) ↦ (r, 2n-1-c)` is `(1, 0)`, under the
vertical reflection `(r, c) ↦ (2n-1-r, c)` is `(0, 1)`; both are clear. -/
theorem C8_counterexample :
    makeRadiusKernel 1 1 1 = true ∧
    makeRadiusKernel 1 1 (2 * 1 - 1 - 1) = false ∧
    makeRadiusKernel 1 (2 * 1 - 1 - 1) 1 = false := by
  decide

/-- C8 amended: the kernel grid is symmetric under transposition
(reflection about its main diagonal), its only symmetry as an array;
rotation by 90° and reflections about the array center fail because the
disc center `(n_pixels, n_pixels)` is not the center of the even-sided
`2*n_pixels` grid. -/
theorem C8_amended_transpose (n r c : ℕ) :
    makeRadiusKernel n r c = makeRadiusKernel n c r := by
  simp only [makeRadiusKernel, decide_eq_decide]
  constructor <;> intro h <;> linarith

/-- `maskCell` with a declared (non-`None`) no-data value, unfolded into
its three outcomes. -/
theorem maskCell_some (nd mv a : FVal) :
    maskCell (some nd) mv a =
      if feq a nd then 2 else if feq a mv then 1 else 0 := by
  have h : maskCell (some nd) mv a =
      if (!feq a nd) then (if feq a mv then 1 else 0) else 2 := rfl
  rw [h]
  cases feq a nd <;> simp

/-- `maskCell` with no declared no-data value, unfolded. -/
theorem maskCell_none (mv a : FVal) :
    maskCell none mv a =
      if isfinite a then (if feq a mv then 1 else 0) else 2 := rfl

/-- Every mask cell is 0, 1 or 2. -/
theorem maskCell_mem (nodata : Option FVal) (mv a : FVal) :
    maskCell nodata mv a = 0 ∨ maskCell nodata mv a = 1 ∨
      maskCell nodata mv a = 2 := by
  cases nodata with
  | none =>
    rw [maskCell_none]
    by_cases h1 : isfinite a = true <;> by_cases h2 : feq a mv = true <;>
      simp [h1, h2]
  | some nd =>
    rw [maskCell_some]
    by_cases h1 : feq a nd = true <;> by_cases h2 : feq a mv = true <;>
      simp [h1, h2]

/-- `feq` against a finite value decides equality with `FVal.fin`. -/
theorem feq_fin_iff (a : FVal) (q : ℚ) :
    feq a (FVal.fin q) = true ↔ a = FVal.fin q := by
  cases a <;> simp [feq]

/-- Counting a value in a mapped list counts the preimages. -/
theorem count_map_eq_countP (f : FVal → ℤ) (l : List FVal) (k : ℤ) :
    (l.map f).count k = l.countP (fun a => f a == k) := by
  induction l with
  | nil => rfl
  | cons a t ih => simp [List.count_cons, List.countP_cons, ih]

/-- Cells valued 0, 1 and 2 partition a mapped list whose function only
produces 0, 1 or 2. -/
theorem count012_partition (f : FVal → ℤ)
    (hf : ∀ a, f a = 0 ∨ f a = 1 ∨ f a = 2) (l : List FVal) :
    (l.map f).count 0 + (l.map f).count 1 + (l.map f).count 2 = l.length := by
  induction l with
  | nil => rfl
  | cons a t ih =>
    rcases hf a with h | h | h <;>
      simp [List.count_cons, h, ih] <;> omega

/-- A mask cell equals 1 exactly when the input cell equals the category
value, provided the category differs from the declared no-data value. -/
theorem maskCell_eq_one (d v : ℚ) (hvd : v ≠ d) (a : FVal) :
    (maskCell (some (FVal.fin d)) (FVal.fin v) a == (1 : ℤ)) =
      feq a (FVal.fin v) := by
  rw [maskCell_some]
  cases h1 : feq a (FVal.fin d) with
  | true =>
    rw [feq_fin_iff] at h1
    subst h1
    have hdd : feq (FVal.fin d) (FVal.fin d) = true := by simp [feq]
    have hdv : feq (FVal.fin d) (FVal.fin v) = false := by
      simp [feq]
      intro h
      exact hvd h.symm
    simp [hdd, hdv]
  | false =>
    cases h2 : feq a (FVal.fin v) with
    | true => simp [h1, h2]
    | false => simp [h1, h2]

/-- A mask cell equals 2 exactly when the input cell equals the declared
no-data value. -/
theorem maskCell_eq_two (nd mv a : FVal) :
    (maskCell (some nd) mv a == (2 : ℤ)) = feq a nd := by
  rw [maskCell_some]
  cases h1 : feq a nd with
  | true => simp [h1]
  | false =>
    cases h2 : feq a mv with
    | true => simp [h1, h2]
    | false => simp [h1, h2]

/-- C9: for a raster with declared finite no-data value `d` and any
category code `v` (category codes are distinct from no-data), the mask
produced by `_mask_by_value` has exactly as many 1-cells as the input has
cells equal to `v`, exactly as many invalid-sentinel (2) cells as the
input has cells equal to `d`, and the 0-, 1- and 2-cells partition the
grid. -/
theorem C9_mask_counts (d v : ℚ) (arr : List FVal) (hvd : v ≠ d) :
    (maskOp (some (FVal.fin d)) (FVal.fin v) arr).count 1 =
      arr.countP (fun a => feq a (FVal.fin v)) ∧
    (maskOp (some (FVal.fin d)) (FVal.fin v) arr).count 2 =
      arr.countP (fun a => feq a (FVal.fin d)) ∧
    (maskOp (some (FVal.fin d)) (FVal.fin v) arr).count 0 +
      (maskOp (some (FVal.fin d)) (FVal.fin v) arr).count 1 +
      (maskOp (some (FVal.fin d)) (FVal.fin v) arr).count 2 = arr.length := by
  refine ⟨?_, ?_, ?_⟩
  · rw [maskOp, count_map_eq_countP]
    apply List.countP_congr
    intro a _
    rw [maskCell_eq_one d v hvd a]
  · rw [maskOp, count_map_eq_countP]
    apply List.countP_congr
    intro a _
    rw [maskCell_eq_two]
  · exact count012_partition _ (maskCell_mem _ _) arr

/-- Witness for C9: no-data `-1`, category `3`, a 4-cell raster holding
the category once, the no-data value once, another value and a `NaN`. -/
theorem C9_witness :
    (3 : ℚ) ≠ -1 ∧
    ((maskOp (some (FVal.fin (-1))) (FVal.fin 3)
        [FVal.fin 3, FVal.fin (-1), FVal.fin 0, FVal.nan]).count 1 =
      ([FVal.fin 3, FVal.fin (-1), FVal.fin 0, FVal.nan].countP
        (fun a => feq a (FVal.fin 3))) ∧
    (maskOp (some (FVal.fin (-1))) (FVal.fin 3)
        [FVal.fin 3, FVal.fin (-1), FVal.fin 0, FVal.nan]).count 2 =
      ([FVal.fin 3, FVal.fin (-1), FVal.fin 0, FVal.nan].countP
        (fun a => feq a (FVal.fin (-1)))) ∧
    (maskOp (some (FVal.fin (-1))) (FVal.fin 3)
        [FVal.fin 3, FVal.fin (-1), FVal.fin 0, FVal.nan]).count 0 +
      (maskOp (some (FVal.fin (-1))) (FVal.fin 3)
        [FVal.fin 3, FVal.fin (-1), FVal.fin 0, FVal.nan]).count 1 +
      (maskOp (some (FVal.fin (-1))) (FVal.fin 3)
        [FVal.fin 3, FVal.fin (-1), FVal.fin 0, FVal.nan]).count 2 =
      ([FVal.fin 3, FVal.fin (-1), FVal.fin 0, FVal.nan] : List FVal).length) :=
  ⟨by norm_num, C9_mask_counts (-1) 3
    [FVal.fin 3, FVal.fin (-1), FVal.fin 0, FVal.nan] (by norm_num)⟩

/-- C10: when the declared no-data value is `NaN`, the validity test
`array != nodata` holds at every cell (IEEE `NaN != x` is true), so `NaN`
no-data cells are written as 0 (absent) instead of the invalid sentinel 2:
the whole mask reduces to the plain equality test against the category
value, the `NaN` cell itself yielding 0, and no cell ever receives 2. -/
theorem C10_nan_nodata (mv : ℚ) (arr : List FVal) :
    (∀ a : FVal, fne a FVal.nan = true) ∧
    maskOp (some FVal.nan) (FVal.fin mv) arr =
      arr.map (fun a => if feq a (FVal.fin mv) then (1 : ℤ) else 0) ∧
    maskCell (some FVal.nan) (FVal.fin mv) FVal.nan = 0 ∧
    (maskOp (some FVal.nan) (FVal.fin mv) arr).count 2 = 0 := by
  have hne : ∀ a : FVal, fne a FVal.nan = true := by
    intro a
    cases a <;> rfl
  have hfeqn : ∀ a : FVal, feq a FVal.nan = false := by
    intro a
    cases a <;> rfl
  have hcell : ∀ a : FVal, maskCell (some FVal.nan) (FVal.fin mv) a =
      if feq a (FVal.fin mv) then (1 : ℤ) else 0 := by
    intro a
    rw [maskCell_some, hfeqn a, if_neg (by simp)]
  refine ⟨hne, ?_, ?_, ?_⟩
  · rw [maskOp]
    exact List.map_congr_left (fun a _ => hcell a)
  · rw [hcell]
    simp [feq]
  · rw [maskOp, count_map_eq_countP]
    apply List.countP_eq_zero.mpr
    intro a _
    rw [hcell a]
    by_cases h : feq a (FVal.fin mv) = true <;> simp [h]

/-- C1 counterexample: `_add_threshold_op` initializes every output cell
to `NODATA = -1` and then adds 1 per strictly-positive input raster, so
with a single (category, radius) neighborhood-count raster that is
strictly positive at the only cell — one distinct reachable category, for
which the claim demands the value 1 — the code produces 0. -/
theorem C1_counterexample :
    addThresholds [[5]] 1 = [0] ∧ addThresholdCell [5] = 0 ∧
      addThresholdCell [5] ≠ 1 := by
  refine ⟨rfl, rfl, ?_⟩
  intro h
  simp [addThresholdCell, NODATA] at h

/-- Start the threshold fold from an arbitrary accumulator: it adds the
number of strictly positive values. -/
theorem foldl_threshold (vals : List ℤ) :
    ∀ acc : ℤ, vals.foldl (fun a v => if 0 < v then a + 1 else a) acc =
      acc + (vals.countP (fun v => decide (0 < v)) : ℤ) := by
  induction vals with
  | nil => simp
  | cons v l ih =>
    intro acc
    simp only [List.foldl_cons, List.countP_cons]
    rw [ih]
    by_cases h : 0 < v
    · simp [h]
      ring
    · simp [h]

/-- C1 amended: each cell of the raster produced by `_add_thresholds`
equals the number of input rasters strictly positive at that cell MINUS
ONE (the accumulator starts at the no-data sentinel -1).  A cell flagged
by exactly one raster holds 0, a cell flagged by none holds -1; a
category flagged by several radii contributes once per radius, and cells
where the underlying input raster was no-data get no special treatment. -/
theorem C1_amended_cell_value (arrays : List (List ℤ)) (ncells : ℕ) :
    addThresholds arrays ncells = (List.range ncells).map
      (fun i => (arrays.countP (fun a => decide (0 < a.getD i 0)) : ℤ) - 1) := by
  unfold addThresholds
  apply List.map_congr_left
  intro i _
  rw [addThresholdCell, foldl_threshold, List.countP_map]
  unfold NODATA
  rw [Function.comp_def]
  ring

/-- C2 (code bug): `convolution_raster_list` and `convolution_task_list`
are re-initialized INSIDE the `for unique_value in unique_set` loop while
the `_add_thresholds` aggregator is submitted after the loop, so for a
raster with category set `{1, 2}` and one requested radius the aggregator
receives (and depends on) only the last category's convolution raster:
`(0, 1, 5)` is produced but absent from the aggregator's inputs, which
cover just `[(0, 2, 5)]` instead of the full cross product. -/
theorem C2_aggregator_misses_categories :
    (processRasterPhase2 0 [1, 2] [⟨5, (0, 5), some 0⟩] (initPhase2 1)).2.inputs =
      [(0, 2, 5)] ∧
    allConvOutputs 0 [1, 2] [⟨5, (0, 5), some 0⟩] = [(0, 1, 5), (0, 2, 5)] ∧
    ((0, 1, 5) : ℕ × ℤ × ℚ) ∈ allConvOutputs 0 [1, 2] [⟨5, (0, 5), some 0⟩] ∧
    ((0, 1, 5) : ℕ × ℤ × ℚ) ∉
      (processRasterPhase2 0 [1, 2] [⟨5, (0, 5), some 0⟩] (initPhase2 1)).2.inputs ∧
    (processRasterPhase2 0 [1, 2] [⟨5, (0, 5), some 0⟩] (initPhase2 1)).2.deps =
      [4] ∧
    (processRasterPhase2 0 [1, 2] [⟨5, (0, 5), some 0⟩]
      (initPhase2 1)).1.convTasks.map (fun t => t.tid) = [2, 4] := by
  refine ⟨rfl, rfl, ?_, ?_, rfl, rfl⟩
  · decide
  · decide

/-- The 5% guard does not fire for radius 5 on a 10000x10000 raster of
pixel size 1. -/
theorem guard_not_10000_5 : ¬ radiusTooLarge false ⟨1, 10000, 10000⟩ 5 := by
  norm_num [radiusTooLarge, minRasterSize]

/-- The 5% guard does not fire for radius 10 on a 10000x10000 raster of
pixel size 1. -/
theorem guard_not_10000_10 : ¬ radiusTooLarge false ⟨1, 10000, 10000⟩ 10 := by
  norm_num [radiusTooLarge, minRasterSize]

/-- Radius 5 at pixel size 1 converts to `n_pixels = 5`. -/
theorem npix_10000_5 : nPixelsOf ⟨1, 10000, 10000⟩ 5 = 5 := by
  norm_num [nPixelsOf, pyRound]

/-- Radius 10 at pixel size 1 converts to `n_pixels = 10`. -/
theorem npix_10000_10 : nPixelsOf ⟨1, 10000, 10000⟩ 10 = 10 := by
  norm_num [nPixelsOf, pyRound]

/-- C5 (code bug): on a dedup hit, line 145 reads only the kernel *path*
from `kernel_lookup_by_n_pixels`, while the task appended to
`kernel_path_list` (line 146) is the Python variable `kernel_task` — left
over from the most recent `add_task`.  With raster 0 requesting radii 5
and 10 (pixel size 1) and raster 1 requesting the same radii, raster 1's
entry for kernel `(0, 5)` carries task 2 (the builder of kernel
`(0, 10)`), so the convolution consuming kernel `(0, 5)` declares
`dependent_task_list = [mask 4, kernel 2]` and does NOT depend on task 1,
the work item that actually builds kernel `(0, 5)`. -/
theorem C5_stale_kernel_dependency :
    processAllRasters false [5, 10] [⟨1, 10000, 10000⟩, ⟨1, 10000, 10000⟩] =
      Except.ok
        (⟨[(10, ⟨(0, 10), 2⟩), (5, ⟨(0, 5), 1⟩)], some 2, 4,
          [WorkItem.uniqueValues 0 0, WorkItem.kernelBuild 5 (0, 5) 1,
           WorkItem.kernelBuild 10 (0, 10) 2, WorkItem.uniqueValues 1 3]⟩,
         [[⟨5, (0, 5), some 1⟩, ⟨10, (0, 10), some 2⟩],
          [⟨5, (0, 5), some 2⟩, ⟨10, (0, 10), some 2⟩]]) ∧
    (processUniqueValue 1 [⟨5, (0, 5), some 2⟩, ⟨10, (0, 10), some 2⟩]
        (initPhase2 4) 7).convTasks =
      [⟨(1, 7), (0, 5), (1, 7, 5), [some 4, some 2], 5⟩,
       ⟨(1, 7), (0, 10), (1, 7, 10), [some 4, some 2], 6⟩] ∧
    (some 1 : Option ℕ) ∉ [some 4, some 2] := by
  refine ⟨?_, by rfl, by decide⟩
  simp only [processAllRasters, processRastersFrom, processRaster, processRadii,
    processRadius, initState, eq_false guard_not_10000_5,
    eq_false guard_not_10000_10, npix_10000_5, npix_10000_10, findKernel,
    if_false]
  rfl

/-- The 5% guard does not fire for radius 3/10 on a 100x100 raster of
pixel size 1. -/
theorem guard_not_100_03 : ¬ radiusTooLarge false ⟨1, 100, 100⟩ (3 / 10) := by
  norm_num [radiusTooLarge, minRasterSize]

/-- Radius 3/10 at pixel size 1 rounds to `n_pixels = 0`. -/
theorem npix_100_03 : nPixelsOf ⟨1, 100, 100⟩ (3 / 10) = 0 := by
  norm_num [nPixelsOf, pyRound]

/-- C3 counterexample: a radius (3/10 of a pixel) that rounds to
`n_pixels = 0` raises no error at all — `main` performs no positivity
check on `n_pixels` — and a Kernel Builder work item with `n_pixels = 0`
IS submitted. -/
theorem C3_counterexample :
    processRaster false 0 ⟨1, 100, 100⟩ [3 / 10] initState =
      Except.ok
        (⟨[(0, ⟨(0, 0), 1⟩)], some 1, 2,
          [WorkItem.uniqueValues 0 0, WorkItem.kernelBuild 0 (0, 0) 1]⟩,
         [⟨3 / 10, (0, 0), some 1⟩]) ∧
    nPixelsOf ⟨1, 100, 100⟩ (3 / 10) = 0 ∧
    WorkItem.kernelBuild 0 (0, 0) 1 ∈
      [WorkItem.uniqueValues 0 0, WorkItem.kernelBuild 0 (0, 0) 1] := by
  refine ⟨?_, npix_100_03, by decide⟩
  simp only [processRaster, processRadii, processRadius, initState,
    eq_false guard_not_100_03, npix_100_03, findKernel, if_false]
  rfl

/-- C3 amended: a radius that rounds to `n_pixels = 0` is NOT rejected —
the only validation is the 5% size guard — and (when 0 is not yet in the
kernel cache) a Kernel Builder work item with `n_pixels = 0` is
submitted. -/
theorem C3_amended_zero_radius_accepted (force : Bool) (raster : ℕ)
    (info : RasterInfo) (st : OrchState) (radius : ℚ)
    (hguard : ¬ radiusTooLarge force info radius)
    (hzero : nPixelsOf info radius = 0)
    (hnew : findKernel st.lookup 0 = none) :
    processRadius force raster info st radius =
      Except.ok
        ({ lookup := (0, ⟨(raster, 0), st.nextId⟩) :: st.lookup
           kvar := some st.nextId
           nextId := st.nextId + 1
           tasks := st.tasks ++ [WorkItem.kernelBuild 0 (raster, 0) st.nextId] },
         ⟨radius, (raster, 0), some st.nextId⟩) := by
  simp only [processRadius, if_neg hguard, hzero, hnew]

/-- Witness for the amended C3. -/
theorem C3_amended_witness :
    (¬ radiusTooLarge false ⟨1, 100, 100⟩ (3 / 10)) ∧
    nPixelsOf ⟨1, 100, 100⟩ (3 / 10) = 0 ∧
    findKernel initState.lookup 0 = none ∧
    processRadius false 0 ⟨1, 100, 100⟩ initState (3 / 10) =
      Except.ok
        (⟨[(0, ⟨(0, 0), 0⟩)], some 0, 1, [WorkItem.kernelBuild 0 (0, 0) 0]⟩,
         ⟨3 / 10, (0, 0), some 0⟩) :=
  ⟨guard_not_100_03, npix_100_03, rfl,
    C3_amended_zero_radius_accepted false 0 ⟨1, 100, 100⟩ initState (3 / 10)
      guard_not_100_03 npix_100_03 rfl⟩

/-- The 5% guard fires for radius 10 on a 100x100 raster of pixel size 1
(10 > 5 = 5% of the shorter dimension). -/
theorem guard_yes_100_10 : radiusTooLarge false ⟨1, 100, 100⟩ 10 :=
  ⟨rfl, by norm_num [minRasterSize]⟩

/-- C4 counterexample: for a 100x100 raster of pixel size 1 and radius 10
(which exceeds 5% of the shorter dimension) without `--force`, the
`ValueError` IS raised — but only after the Category Discoverer
(`get_unique_values`) work item for that raster was already submitted:
the state carried by the raised error holds that work item, refuting
"before any work item for that raster has been scheduled". -/
theorem C4_counterexample :
    processRaster false 0 ⟨1, 100, 100⟩ [10] initState =
      Except.error ⟨[], none, 1, [WorkItem.uniqueValues 0 0]⟩ ∧
    WorkItem.uniqueValues 0 0 ∈
      (⟨[], none, 1, [WorkItem.uniqueValues 0 0]⟩ : OrchState).tasks := by
  refine ⟨?_, by decide⟩
  simp only [processRaster, processRadii, processRadius, initState,
    eq_true guard_yes_100_10, if_true]
  rfl

/-- An erroring `processRadius` raises at the current state. -/
theorem processRadius_error_eq (force : Bool) (raster : ℕ) (info : RasterInfo)
    (st : OrchState) (radius : ℚ) (st' : OrchState)
    (h : processRadius force raster info st radius = Except.error st') :
    st' = st := by
  simp only [processRadius] at h
  by_cases hg : radiusTooLarge force info radius
  · rw [if_pos hg] at h
    exact (Except.error.injEq _ _ ▸ h).symm
  · rw [if_neg hg] at h
    cases hf : findKernel st.lookup (nPixelsOf info radius) <;> rw [hf] at h <;>
      cases h

/-- A successful `processRadius` only appends work items. -/
theorem processRadius_ok_tasks (force : Bool) (raster : ℕ) (info : RasterInfo)
    (st : OrchState) (radius : ℚ) (st' : OrchState) (e : RadiusEntry)
    (h : processRadius force raster info st radius = Except.ok (st', e)) :
    ∀ t, t ∈ st.tasks → t ∈ st'.tasks := by
  simp only [processRadius] at h
  by_cases hg : radiusTooLarge force info radius
  · rw [if_pos hg] at h
    cases h
  · rw [if_neg hg] at h
    cases hf : findKernel st.lookup (nPixelsOf info radius) <;> rw [hf] at h <;>
      simp only [Except.ok.injEq, Prod.mk.injEq] at h <;>
      obtain ⟨h1, h2⟩ := h <;> subst h1
    · intro t ht
      simp only [List.mem_append]
      exact Or.inl ht
    · intro t ht
      exact ht

/-- If any requested radius violates the 5% guard, the radius loop raises,
and every work item submitted before the loop is still recorded in the
state carried by the raised error. -/
theorem processRadii_error_of_violation (force : Bool) (raster : ℕ)
    (info : RasterInfo) :
    ∀ (radii : List ℚ) (st : OrchState),
      (∃ r ∈ radii, radiusTooLarge force info r) →
      ∃ st', processRadii force raster info st radii = Except.error st' ∧
        ∀ t, t ∈ st.tasks → t ∈ st'.tasks := by
  intro radii
  induction radii with
  | nil =>
    intro st h
    simp at h
  | cons r rest ih =>
    intro st h
    by_cases hg : radiusTooLarge force info r
    · refine ⟨st, ?_, fun t ht => ht⟩
      simp only [processRadii, processRadius, if_pos hg]
    · have hrest : ∃ r' ∈ rest, radiusTooLarge force info r' := by
        obtain ⟨r', hr', hv⟩ := h
        cases List.mem_cons.mp hr' with
        | inl he =>
          subst he
          exact absurd hv hg
        | inr hm => exact ⟨r', hm, hv⟩
      cases hres : processRadius force raster info st r with
      | error st0 =>
        refine ⟨st0, ?_, ?_⟩
        · simp only [processRadii, hres]
        · have : st0 = st := processRadius_error_eq _ _ _ _ _ _ hres
          subst this
          exact fun t ht => ht
      | ok p =>
        obtain ⟨st1, e⟩ := p
        obtain ⟨st', hst', hmem⟩ := ih st1 hrest
        refine ⟨st', ?_, ?_⟩
        · simp only [processRadii, hres, hst']
        · intro t ht
          exact hmem t (processRadius_ok_tasks _ _ _ _ _ _ _ hres t ht)

/-- C4 amended: with `--force` unset, a radius exceeding 5% of the
raster's shorter dimension in projected units makes `main` raise a
`ValueError` during the per-radius loop — before any kernel work item for
the offending radius — but AFTER the Category Discoverer work item for
that raster was submitted: that work item is in the state carried by the
raised error. -/
theorem C4_amended_error_after_discoverer (raster : ℕ) (info : RasterInfo)
    (radii : List ℚ) (st : OrchState)
    (h : ∃ r ∈ radii, radiusTooLarge false info r) :
    ∃ st', processRaster false raster info radii st = Except.error st' ∧
      WorkItem.uniqueValues raster st.nextId ∈ st'.tasks := by
  obtain ⟨st', h1, h2⟩ := processRadii_error_of_violation false raster info radii
    { st with
      nextId := st.nextId + 1
      tasks := st.tasks ++ [WorkItem.uniqueValues raster st.nextId] } h
  refine ⟨st', ?_, ?_⟩
  · simpa [processRaster] using h1
  · exact h2 _ (by simp)

/-- Witness for the amended C4. -/
theorem C4_amended_witness :
    ∃ st', processRaster false 0 ⟨1, 100, 100⟩ [10] initState =
        Except.error st' ∧
      WorkItem.uniqueValues 0 0 ∈ st'.tasks :=
  C4_amended_error_after_discoverer 0 ⟨1, 100, 100⟩ [10] initState
    ⟨10, by simp, guard_yes_100_10⟩

/-- Does a work item build the kernel for `n` pixels? -/
def isKernelBuildFor (n : ℤ) : WorkItem → Bool
  | WorkItem.kernelBuild m _ _ => m == n
  | _ => false

/-- Number of kernel-builder work items for `n` pixels among the
submitted items. -/
def kernelCount (n : ℤ) (ts : List WorkItem) : ℕ :=
  ts.countP (isKernelBuildFor n)

/-- The dedup invariant: for every `n_pixels`, exactly one kernel-builder
work item has been submitted if `n_pixels` is in the kernel cache, and
none otherwise. -/
def KernelInv (st : OrchState) : Prop :=
  ∀ n : ℤ, kernelCount n st.tasks =
    if (findKernel st.lookup n).isSome then 1 else 0

/-- Looking up the kernel cache after an insert. -/
theorem findKernel_cons (n0 : ℤ) (entry : KernelEntry)
    (l : List (ℤ × KernelEntry)) (n : ℤ) :
    findKernel ((n0, entry) :: l) n =
      if n0 = n then some entry else findKernel l n := by
  simp only [findKernel, List.find?]
  by_cases h : n0 = n
  · subst h
    simp
  · have : ((n0, entry).1 == n) = false := by
      simp [h]
    rw [this]
    simp [h]

/-- `kernelCount` distributes over append. -/
theorem kernelCount_append (n : ℤ) (ts1 ts2 : List WorkItem) :
    kernelCount n (ts1 ++ ts2) = kernelCount n ts1 + kernelCount n ts2 :=
  List.countP_append _ _ _

/-- `kernelCount` of a single kernel-builder item. -/
theorem kernelCount_build (n m : ℤ) (p : ℕ × ℤ) (tid : ℕ) :
    kernelCount n [WorkItem.kernelBuild m p tid] = if m = n then 1 else 0 := by
  simp only [kernelCount, List.countP, List.countP.go, isKernelBuildFor]
  by_cases h : m = n
  · simp [h]
  · have hb : (m == n) = false := beq_eq_false_iff_ne.mpr h
    rw [hb]
    simp [h]

/-- `kernelCount` of a single unique-values item. -/
theorem kernelCount_unique (n : ℤ) (r tid : ℕ) :
    kernelCount n [WorkItem.uniqueValues r tid] = 0 := rfl

/-- `processRadius` preserves the dedup invariant. -/
theorem processRadius_inv (force : Bool) (raster : ℕ) (info : RasterInfo)
    (st : OrchState) (radius : ℚ) (st' : OrchState) (e : RadiusEntry)
    (h : processRadius force raster info st radius = Except.ok (st', e))
    (hinv : KernelInv st) : KernelInv st' := by
  simp only [processRadius] at h
  by_cases hg : radiusTooLarge force info radius
  · rw [if_pos hg] at h
    cases h
  · rw [if_neg hg] at h
    cases hf : findKernel st.lookup (nPixelsOf info radius) with
    | none =>
      rw [hf] at h
      simp only [Except.ok.injEq, Prod.mk.injEq] at h
      obtain ⟨h1, _⟩ := h
      subst h1
      intro n
      simp only [kernelCount_append, findKernel_cons]
      by_cases hn : nPixelsOf info radius = n
      · subst hn
        have h0 := hinv (nPixelsOf info radius)
        rw [hf] at h0
        simp only [Option.isSome_none, Bool.false_eq_true, if_false] at h0
        rw [h0, kernelCount_build]
        simp
      · rw [if_neg hn, kernelCount_build, if_neg hn]
        have h0 := hinv n
        omega
    | some entry =>
      rw [hf] at h
      simp only [Except.ok.injEq, Prod.mk.injEq] at h
      obtain ⟨h1, _⟩ := h
      subst h1
      exact hinv

/-- The radius loop preserves the dedup invariant. -/
theorem processRadii_inv (force : Bool) (raster : ℕ) (info : RasterInfo) :
    ∀ (radii : List ℚ) (st : OrchState) (st' : OrchState)
      (es : List RadiusEntry),
      processRadii force raster info st radii = Except.ok (st', es) →
      KernelInv st → KernelInv st' := by
  intro radii
  induction radii with
  | nil =>
    intro st st' es h hinv
    simp only [processRadii, Except.ok.injEq, Prod.mk.injEq] at h
    obtain ⟨h1, _⟩ := h
    subst h1
    exact hinv
  | cons r rest ih =>
    intro st st' es h hinv
    simp only [processRadii] at h
    cases hres : processRadius force raster info st r with
    | error st0 =>
      simp only [hres] at h
      cases h
    | ok p =>
      obtain ⟨st1, e⟩ := p
      simp only [hres] at h
      cases hrest : processRadii force raster info st1 rest with
      | error st2 =>
        simp only [hrest] at h
        cases h
      | ok q =>
        obtain ⟨st2, es2⟩ := q
        simp only [hrest, Except.ok.injEq, Prod.mk.injEq] at h
        obtain ⟨h1, _⟩ := h
        subst h1
        exact ih st1 st2 es2 hrest
          (processRadius_inv _ _ _ _ _ _ _ hres hinv)

/-- Submitting the unique-values work item preserves the dedup
invariant (it is not a kernel build). -/
theorem processRaster_inv (force : Bool) (raster : ℕ) (info : RasterInfo)
    (radii : List ℚ) (st st' : OrchState) (es : List RadiusEntry)
    (h : processRaster force raster info radii st = Except.ok (st', es))
    (hinv : KernelInv st) : KernelInv st' := by
  simp only [processRaster] at h
  refine processRadii_inv force raster info radii _ st' es h ?_
  intro n
  simp only [kernelCount_append, kernelCount_unique]
  have h0 := hinv n
  simpa using h0

/-- The whole first loop preserves the dedup invariant. -/
theorem processRastersFrom_inv (force : Bool) (radii : List ℚ) :
    ∀ (infos : List RasterInfo) (st : OrchState) (idx : ℕ)
      (st' : OrchState) (out : List (List RadiusEntry)),
      processRastersFrom force radii st idx infos = Except.ok (st', out) →
      KernelInv st → KernelInv st' := by
  intro infos
  induction infos with
  | nil =>
    intro st idx st' out h hinv
    simp only [processRastersFrom, Except.ok.injEq, Prod.mk.injEq] at h
    obtain ⟨h1, _⟩ := h
    subst h1
    exact hinv
  | cons info rest ih =>
    intro st idx st' out h hinv
    simp only [processRastersFrom] at h
    cases hres : processRaster force idx info radii st with
    | error st0 =>
      simp only [hres] at h
      cases h
    | ok p =>
      obtain ⟨st1, es⟩ := p
      simp only [hres] at h
      cases hrest : processRastersFrom force radii st1 (idx + 1) rest with
      | error st2 =>
        simp only [hrest] at h
        cases h
      | ok q =>
        obtain ⟨st2, out2⟩ := q
        simp only [hrest, Except.ok.injEq, Prod.mk.injEq] at h
        obtain ⟨h1, _⟩ := h
        subst h1
        exact ih st1 (idx + 1) st2 out2 hrest
          (processRaster_inv _ _ _ _ _ _ _ hres hinv)

/-- C6: across one whole run that completes its submission loop, for
every distinct `n_pixels` value exactly one Kernel Builder work item has
been submitted when `n_pixels` is in the kernel cache (which holds every
`n_pixels` any processed radius resolved to) and none otherwise — even
when multiple input rasters or multiple radii resolve to the same
`n_pixels`.  Each kernel-builder work item writes exactly the one artifact
path recorded with it, so one artifact exists per distinct `n_pixels`. -/
theorem C6_kernel_dedup (force : Bool) (radii : List ℚ)
    (infos : List RasterInfo) (st : OrchState)
    (out : List (List RadiusEntry))
    (h : processAllRasters force radii infos = Except.ok (st, out)) (n : ℤ) :
    kernelCount n st.tasks =
      if (findKernel st.lookup n).isSome then 1 else 0 := by
  have hinit : KernelInv initState := by
    intro m
    rfl
  exact processRastersFrom_inv force radii infos initState 0 st out h hinit n

/-- Witness for C6: two rasters, one radius resolving to `n_pixels = 5`
for both; the run submits exactly one kernel-builder work item. -/
theorem C6_witness :
    processAllRasters false [5] [⟨1, 10000, 10000⟩, ⟨1, 10000, 10000⟩] =
      Except.ok
        (⟨[(5, ⟨(0, 5), 1⟩)], some 1, 3,
          [WorkItem.uniqueValues 0 0, WorkItem.kernelBuild 5 (0, 5) 1,
           WorkItem.uniqueValues 1 2]⟩,
         [[⟨5, (0, 5), some 1⟩], [⟨5, (0, 5), some 1⟩]]) ∧
    kernelCount 5
      ([WorkItem.uniqueValues 0 0, WorkItem.kernelBuild 5 (0, 5) 1,
        WorkItem.uniqueValues 1 2] : List WorkItem) =
      if (findKernel [(5, ⟨(0, 5), 1⟩)] 5).isSome then 1 else 0 := by
  have h : processAllRasters false [5] [⟨1, 10000, 10000⟩, ⟨1, 10000, 10000⟩] =
      Except.ok
        (⟨[(5, ⟨(0, 5), 1⟩)], some 1, 3,
          [WorkItem.uniqueValues 0 0, WorkItem.kernelBuild 5 (0, 5) 1,
           WorkItem.uniqueValues 1 2]⟩,
         [[⟨5, (0, 5), some 1⟩], [⟨5, (0, 5), some 1⟩]]) := by
    simp only [processAllRasters, processRastersFrom, processRaster,
      processRadii, processRadius, initState, eq_false guard_not_10000_5,
      npix_10000_5, findKernel, if_false]
    rfl
  exact ⟨h,
    C6_kernel_dedup false [5] [⟨1, 10000, 10000⟩, ⟨1, 10000, 10000⟩] _ _ h 5⟩
